import Mathlib

/-!
A verification development of the bluetooth device handoff controller
(`bt_switch`).  The executors, the bluez driver, the driver factory, the
switch service and the entry point are modelled as pure functions over an
environment `CmdEnv` that determines the outcome of every spawned
subprocess (the command vector actually handed to the operating system,
with the ssh wrapping of remote commands made explicit).  Each operation
returns its result together with a trace of log events and spawned
commands, so that theorems can speak about which bluetooth commands a run
issues and in which order.
-/

/-- Outcome of spawning one subprocess: normal exit with captured stdout,
non-zero exit with captured stderr, timeout expiry, or a missing binary
(in python, `subprocess.run` raises `FileNotFoundError` for the last). -/
inductive ExecOutcome where
  | success (stdout : String)
  | nonZeroExit (stderr : String)
  | timedOut
  | binaryNotFound
deriving DecidableEq

/-- The exceptions the script can raise: `ExecutionError` (a `BtSwitchError`
carrying the attempted command and diagnostic text), `FileNotFoundError`
(raised by `subprocess.run` itself, not a `BtSwitchError`), and
`ConfigurationError` (a `BtSwitchError`). -/
inductive PyError where
  | executionError (cmd : List String) (stderr : String)
  | fileNotFoundError
  | configurationError (msg : String)
deriving DecidableEq

/-- Execution channel kind of a host (`protocol` field). -/
inductive Protocol where
  | ssh
  | localProto
deriving DecidableEq

/-- Bluetooth stack kind of a host (`driver_type` field). -/
inductive DriverType where
  | bluez
  | macos
deriving DecidableEq

/-- Host descriptor, as in the `Host` pydantic model. -/
structure Host where
  address : String
  user : String
  protocol : Protocol
  driver_type : DriverType
deriving DecidableEq

/-- python `str.strip()`: drop leading and trailing whitespace. -/
def trimStr (s : String) : String :=
  String.mk (((s.toList.dropWhile Char.isWhitespace).reverse.dropWhile
    Char.isWhitespace).reverse)

/-- python `str.lower()` on ascii text. -/
def lowerStr (s : String) : String :=
  String.mk (s.toList.map Char.toLower)

/-- whether the first list is an initial segment of the second. -/
def leadsList : List Char → List Char → Bool
  | [], _ => true
  | _ :: _, [] => false
  | a :: as, b :: bs => a = b && leadsList as bs

/-- whether `needle` occurs contiguously in the second list. -/
def hasSubList (needle : List Char) : List Char → Bool
  | [] => needle.isEmpty
  | c :: t => leadsList needle (c :: t) || hasSubList needle t

/-- python `pat in s` on strings. -/
def containsSub (s pat : String) : Bool :=
  hasSubList pat.toList s.toList

/-- the single-quote character, used by `shlex.quote`. -/
def quoteCh : String := String.singleton (Char.ofNat 39)

/-- characters `shlex.quote` considers safe (ascii letters, digits, and underscore at-sign percent plus equals colon comma dot slash dash). -/
def shlexSafeChar (c : Char) : Bool :=
  c.isAlphanum || c = '_' || c = '@' || c = '%' || c = '+' || c = '=' ||
  c = ':' || c = ',' || c = '.' || c = '/' || c = '-'

/-- python `shlex.quote`. -/
def shlexQuote (s : String) : String :=
  if s = "" then quoteCh ++ quoteCh
  else if s.toList.all shlexSafeChar then s
  else quoteCh ++ String.join (s.toList.map (fun c =>
    if c = Char.ofNat 39 then quoteCh ++ "\"" ++ quoteCh ++ "\"" ++ quoteCh
    else String.singleton c)) ++ quoteCh

/-- python `shlex.join`. -/
def shlexJoin (cmd : List String) : String :=
  String.intercalate " " (cmd.map shlexQuote)

/-- The command vector `SshExecutor.run` actually spawns: the ssh wrapper
around the joined remote command line. -/
def sshCmd (host : Host) (cmd : List String) : List String :=
  ["ssh", "-o", "ConnectTimeout=5", "-o", "StrictHostKeyChecking=no",
   "-o", "LogLevel=ERROR", host.user ++ "@" ++ host.address, "--",
   shlexJoin cmd]

/-- Which executor a driver runs on: `LocalExecutor` or `SshExecutor host`. -/
inductive ExecutorKind where
  | localExec
  | sshExec (host : Host)
deriving DecidableEq

/-- The environment: the outcome the operating system produces for each
spawned command vector and timeout. -/
def CmdEnv : Type := List String → Nat → ExecOutcome

/-- The command vector actually handed to the operating system. -/
def spawned : ExecutorKind → List String → List String
  | ExecutorKind.localExec, cmd => cmd
  | ExecutorKind.sshExec host, cmd => sshCmd host cmd

/-- Diagnostic text synthesized on timeout (`Timed out after {t}s`, with an
`SSH` marker for the remote executor). -/
def timeoutMsg : ExecutorKind → Nat → String
  | ExecutorKind.localExec, t => "Timed out after " ++ toString t ++ "s"
  | ExecutorKind.sshExec _, t => "SSH Timed out after " ++ toString t ++ "s"

/-- One entry of a run's trace: a spawned subprocess, or a log record at a
given level (`logger.info`, `.debug`, `.success`, `.warning`, `.error`). -/
inductive LogEvent where
  | exec (cmd : List String) (timeout : Nat)
  | info
  | debug
  | success
  | warning
  | error
deriving DecidableEq

/-- `Executor.run` (both `LocalExecutor.run` and `SshExecutor.run`): spawns
the (possibly ssh-wrapped) command once; returns the stripped stdout on a
zero exit, raises `ExecutionError` on non-zero exit (with stripped stderr)
or on timeout, and lets `FileNotFoundError` escape when the binary is
missing.  The trace records the one spawned command. -/
def Executor.run (env : CmdEnv) (k : ExecutorKind) (cmd : List String)
    (timeout : Nat) : Except PyError String × List LogEvent :=
  (match env (spawned k cmd) timeout with
    | ExecOutcome.success out => Except.ok (trimStr out)
    | ExecOutcome.nonZeroExit stderr =>
        Except.error (PyError.executionError (spawned k cmd) (trimStr stderr))
    | ExecOutcome.timedOut =>
        Except.error (PyError.executionError (spawned k cmd) (timeoutMsg k timeout))
    | ExecOutcome.binaryNotFound => Except.error PyError.fileNotFoundError,
   [LogEvent.exec (spawned k cmd) timeout])

/-- `BluezDriver.is_connected`: runs `bluetoothctl info mac` with timeout 5,
returns whether the output contains `Connected: yes`; an `ExecutionError`
is swallowed and mapped to `false` (a `FileNotFoundError` is not caught). -/
def BluezDriver.is_connected (env : CmdEnv) (k : ExecutorKind) (mac : String) :
    Except PyError Bool × List LogEvent :=
  match Executor.run env k ["bluetoothctl", "info", mac] 5 with
  | (Except.ok output, t) => (Except.ok (containsSub output "Connected: yes"), t)
  | (Except.error (PyError.executionError _ _), t) => (Except.ok false, t)
  | (Except.error e, t) => (Except.error e, t)

/-- `BluezDriver.connect`: runs `bluetoothctl connect mac` with timeout 15;
every failure propagates. -/
def BluezDriver.connect (env : CmdEnv) (k : ExecutorKind) (mac : String) :
    Except PyError Unit × List LogEvent :=
  match Executor.run env k ["bluetoothctl", "connect", mac] 15 with
  | (Except.ok _, t) => (Except.ok (), t)
  | (Except.error e, t) => (Except.error e, t)

/-- `BluezDriver.disconnect`: runs `bluetoothctl disconnect mac` with
timeout 8; an `ExecutionError` whose lowercased stderr contains
`not available` is swallowed (idempotent no-op), every other failure
propagates. -/
def BluezDriver.disconnect (env : CmdEnv) (k : ExecutorKind) (mac : String) :
    Except PyError Unit × List LogEvent :=
  match Executor.run env k ["bluetoothctl", "disconnect", mac] 8 with
  | (Except.ok _, t) => (Except.ok (), t)
  | (Except.error (PyError.executionError c stderr), t) =>
      if containsSub (lowerStr stderr) "not available" then (Except.ok (), t)
      else (Except.error (PyError.executionError c stderr), t)
  | (Except.error e, t) => (Except.error e, t)

/-- Rendering of a protocol value in error messages. -/
def Protocol.str : Protocol → String
  | Protocol.ssh => "ssh"
  | Protocol.localProto => "local"

/-- Rendering of a driver type value in error messages. -/
def DriverType.str : DriverType → String
  | DriverType.bluez => "bluez"
  | DriverType.macos => "macos"

/-- `DriverFactory.create`: picks `LocalExecutor` when `is_local`, else
`SshExecutor` for an ssh host, else raises `ConfigurationError`; then
wraps the executor in a `BluezDriver` for a bluez host, else raises
`ConfigurationError`.  The returned driver is identified by its executor
kind, since bluez is the only driver implementation. -/
def DriverFactory.create (host_config : Host) (is_local : Bool) :
    Except PyError ExecutorKind :=
  match (if is_local then Except.ok ExecutorKind.localExec
    else if host_config.protocol = Protocol.ssh then
      Except.ok (ExecutorKind.sshExec host_config)
    else Except.error (PyError.configurationError
      ("Unsupported protocol: " ++ Protocol.str host_config.protocol))) with
  | Except.error e => Except.error e
  | Except.ok ex =>
      if host_config.driver_type = DriverType.bluez then Except.ok ex
      else Except.error (PyError.configurationError
        ("Unsupported driver: " ++ DriverType.str host_config.driver_type))

/-- How a service run ended when no exception escaped: a completed push, a
push whose remote connect failed but whose local revert succeeded (the
method returns normally without a success log), or a completed pull. -/
inductive RunOutcome where
  | pushSucceeded
  | pushReverted
  | pullSucceeded
deriving DecidableEq

/-- `SwitchService._handle_push`: disconnect locally (failures propagate),
then connect remotely; on success log success; on `ExecutionError` log the
error, log the revert warning and attempt one local connect whose own
failure propagates. -/
def SwitchService.handle_push (env : CmdEnv) (localK remoteK : ExecutorKind)
    (mac : String) : Except PyError RunOutcome × List LogEvent :=
  match BluezDriver.disconnect env localK mac with
  | (Except.error e, t1) => (Except.error e, LogEvent.info :: LogEvent.info :: t1)
  | (Except.ok _, t1) =>
    match BluezDriver.connect env remoteK mac with
    | (Except.ok _, t2) =>
        (Except.ok RunOutcome.pushSucceeded,
         LogEvent.info :: LogEvent.info :: t1 ++ LogEvent.info :: t2 ++
           [LogEvent.success])
    | (Except.error (PyError.executionError _ _), t2) =>
        match BluezDriver.connect env localK mac with
        | (Except.ok _, t3) =>
            (Except.ok RunOutcome.pushReverted,
             LogEvent.info :: LogEvent.info :: t1 ++ LogEvent.info :: t2 ++
               LogEvent.error :: LogEvent.warning :: t3)
        | (Except.error e2, t3) =>
            (Except.error e2,
             LogEvent.info :: LogEvent.info :: t1 ++ LogEvent.info :: t2 ++
               LogEvent.error :: LogEvent.warning :: t3)
    | (Except.error e, t2) =>
        (Except.error e, LogEvent.info :: LogEvent.info :: t1 ++ LogEvent.info :: t2)

/-- Continuation of `SwitchService._handle_pull` after the best-effort
remote disconnect: one local connect attempt, success logged, failures
propagating with no compensating action. -/
def SwitchService.pullConnect (env : CmdEnv) (localK : ExecutorKind)
    (mac : String) (t1 warn : List LogEvent) :
    Except PyError RunOutcome × List LogEvent :=
  match BluezDriver.connect env localK mac with
  | (Except.ok _, t2) =>
      (Except.ok RunOutcome.pullSucceeded,
       LogEvent.info :: LogEvent.debug :: t1 ++ warn ++ LogEvent.info :: t2 ++
         [LogEvent.success])
  | (Except.error e, t2) =>
      (Except.error e,
       LogEvent.info :: LogEvent.debug :: t1 ++ warn ++ LogEvent.info :: t2)

/-- `SwitchService._handle_pull`: best-effort remote disconnect (an
`ExecutionError` is logged as a warning and does not block progress; a
`FileNotFoundError` is not caught), then one local connect attempt. -/
def SwitchService.handle_pull (env : CmdEnv) (localK remoteK : ExecutorKind)
    (mac : String) : Except PyError RunOutcome × List LogEvent :=
  match BluezDriver.disconnect env remoteK mac with
  | (Except.ok _, t1) => SwitchService.pullConnect env localK mac t1 []
  | (Except.error (PyError.executionError _ _), t1) =>
      SwitchService.pullConnect env localK mac t1 [LogEvent.warning]
  | (Except.error e, t1) =>
      (Except.error e, LogEvent.info :: LogEvent.debug :: t1)

/-- `SwitchService.run`: query the local connection state, then branch to
push (connected locally) or pull (not connected locally). -/
def SwitchService.run (env : CmdEnv) (localK remoteK : ExecutorKind)
    (mac : String) : Except PyError RunOutcome × List LogEvent :=
  match BluezDriver.is_connected env localK mac with
  | (Except.error e, t0) => (Except.error e, LogEvent.info :: t0)
  | (Except.ok b, t0) =>
      match (if b then SwitchService.handle_push env localK remoteK mac
        else SwitchService.handle_pull env localK remoteK mac) with
      | (r, t) => (r, LogEvent.info :: t0 ++ t)

/-- The host value the entry point builds for the local side. -/
def localhostHost : Host :=
  { address := "localhost", user := "",
    protocol := Protocol.localProto, driver_type := DriverType.bluez }

/-- `entry_point`, from the moment the configuration has been resolved to a
hostname, a remote host descriptor and a device mac: the self-targeting
guard (warn and return, exit 0, no commands), driver construction, the
service run, and the exception handlers that log and exit 1 on any
`BtSwitchError` or other exception.  Returns the process exit code and
the trace. -/
def entry_point (env : CmdEnv) (hostname : String) (remote_host : Host)
    (mac : String) : Nat × List LogEvent :=
  if remote_host.address = hostname then (0, [LogEvent.warning])
  else
    match DriverFactory.create localhostHost true with
    | Except.error _ => (1, [LogEvent.error])
    | Except.ok localK =>
      match DriverFactory.create remote_host false with
      | Except.error _ => (1, [LogEvent.error])
      | Except.ok remoteK =>
        match SwitchService.run env localK remoteK mac with
        | (Except.ok _, t) => (0, t)
        | (Except.error _, t) => (1, t ++ [LogEvent.error])

/-- The spawned subprocesses of a trace, in order. -/
def execEvents (es : List LogEvent) : List (List String × Nat) :=
  es.filterMap (fun e => match e with
    | LogEvent.exec c t => some (c, t)
    | _ => none)

/-- Whether a result is a raised `ExecutionError`. -/
def isExecError {α : Type} : Except PyError α → Bool
  | Except.error (PyError.executionError _ _) => true
  | _ => false

/-- Whether a result is a raised `ConfigurationError`. -/
def isConfigError {α : Type} : Except PyError α → Bool
  | Except.error (PyError.configurationError _) => true
  | _ => false

/-- Whether a spawn outcome is one `subprocess.run` reports by raising
`TimeoutExpired` or `CalledProcessError` (the cases the executors convert
into `ExecutionError`). -/
def cmdFailed : ExecOutcome → Bool
  | ExecOutcome.nonZeroExit _ => true
  | ExecOutcome.timedOut => true
  | _ => false

/-- The diagnostic text the `ExecutionError` raised for a failing spawn
carries: the stripped stderr on a non-zero exit, the synthesized timeout
message on a timeout (the other outcomes raise no `ExecutionError`). -/
def failDiag (k : ExecutorKind) (t : Nat) : ExecOutcome → String
  | ExecOutcome.nonZeroExit stderr => trimStr stderr
  | _ => timeoutMsg k t

/-- A sample device hardware address. -/
def mac0 : String := "00:11:22:33:44:55"

/-- A sample remote host (ssh channel, bluez stack). -/
def host0 : Host :=
  { address := "office", user := "me",
    protocol := Protocol.ssh, driver_type := DriverType.bluez }

/-- Environment of a push run whose remote connect fails and whose local
revert connect succeeds. -/
def pushRevertEnv : CmdEnv := fun cmd _ =>
  if cmd = ["bluetoothctl", "info", mac0] then ExecOutcome.success "Connected: yes"
  else if cmd = ["bluetoothctl", "disconnect", mac0] then ExecOutcome.success ""
  else if cmd = sshCmd host0 ["bluetoothctl", "connect", mac0] then
    ExecOutcome.nonZeroExit "Failed to connect: org.bluez.Error.Failed"
  else if cmd = ["bluetoothctl", "connect", mac0] then
    ExecOutcome.success "Connection successful"
  else ExecOutcome.binaryNotFound

/-- Environment of a fully successful push run. -/
def pushOkEnv : CmdEnv := fun cmd _ =>
  if cmd = ["bluetoothctl", "info", mac0] then ExecOutcome.success "Connected: yes"
  else if cmd = ["bluetoothctl", "disconnect", mac0] then ExecOutcome.success ""
  else if cmd = sshCmd host0 ["bluetoothctl", "connect", mac0] then
    ExecOutcome.success "Connection successful"
  else ExecOutcome.binaryNotFound

/-- Environment of a pull run whose remote disconnect fails (diagnostic not
about availability) and whose local connect succeeds. -/
def pullOkEnv : CmdEnv := fun cmd _ =>
  if cmd = ["bluetoothctl", "info", mac0] then ExecOutcome.success "Connected: no"
  else if cmd = sshCmd host0 ["bluetoothctl", "disconnect", mac0] then
    ExecOutcome.nonZeroExit "Failed to disconnect: org.bluez.Error.Failed"
  else if cmd = ["bluetoothctl", "connect", mac0] then
    ExecOutcome.success "Connection successful"
  else ExecOutcome.binaryNotFound

/-- Environment of a push run whose initial local disconnect fails with a
diagnostic that is not about availability. -/
def pushDiscFailEnv : CmdEnv := fun cmd _ =>
  if cmd = ["bluetoothctl", "info", mac0] then ExecOutcome.success "Connected: yes"
  else if cmd = ["bluetoothctl", "disconnect", mac0] then
    ExecOutcome.nonZeroExit "Failed to disconnect: org.bluez.Error.Failed"
  else ExecOutcome.binaryNotFound

/-- Environment in which the disconnect command fails because the device is
not available. -/
def discNotAvailEnv : CmdEnv := fun cmd _ =>
  if cmd = ["bluetoothctl", "disconnect", mac0] then
    ExecOutcome.nonZeroExit ("Device " ++ mac0 ++ " not available")
  else ExecOutcome.binaryNotFound

/-- Environment in which every spawn fails because the binary is missing. -/
def notFoundEnv : CmdEnv := fun _ _ => ExecOutcome.binaryNotFound

/-- Environment in which every spawn times out. -/
def timeoutEnv : CmdEnv := fun _ _ => ExecOutcome.timedOut

/-- Environment in which every spawn exits zero with padded output. -/
def succEnv : CmdEnv := fun _ _ => ExecOutcome.success " hi\n"

/-- C4: for every call to `BluezDriver.disconnect` whose underlying command
fails in a way the executor converts to an `ExecutionError` — a non-zero
exit or a timeout — the call returns success when the lowercased
diagnostic contains `not available` (idempotent no-op), and otherwise the
failure propagates as an `ExecutionError` carrying the attempted command
and its diagnostic. -/
theorem disconnect_idempotent_not_available (env : CmdEnv) (k : ExecutorKind)
    (mac : String)
    (h : cmdFailed (env (spawned k ["bluetoothctl", "disconnect", mac]) 8) =
      true) :
    BluezDriver.disconnect env k mac =
      (if containsSub (lowerStr (failDiag k 8
          (env (spawned k ["bluetoothctl", "disconnect", mac]) 8)))
          "not available" = true then Except.ok ()
       else Except.error (PyError.executionError
         (spawned k ["bluetoothctl", "disconnect", mac])
         (failDiag k 8 (env (spawned k ["bluetoothctl", "disconnect", mac]) 8))),
       [LogEvent.exec (spawned k ["bluetoothctl", "disconnect", mac]) 8]) := by
  cases hD : env (spawned k ["bluetoothctl", "disconnect", mac]) 8
  case success out => rw [hD] at h; exact absurd h (by simp [cmdFailed])
  case binaryNotFound => rw [hD] at h; exact absurd h (by simp [cmdFailed])
  case nonZeroExit e =>
    simp only [BluezDriver.disconnect, Executor.run, hD, failDiag]
    split <;> rfl
  case timedOut =>
    simp only [BluezDriver.disconnect, Executor.run, hD, failDiag]
    split <;> rfl

/-- Witness for C4: a concrete disconnect failure whose diagnostic says the
device is not available is treated as success. -/
theorem disconnect_idempotent_not_available_witness :
    cmdFailed (discNotAvailEnv ["bluetoothctl", "disconnect", mac0] 8) = true ∧
    BluezDriver.disconnect discNotAvailEnv ExecutorKind.localExec mac0 =
      (Except.ok (), [LogEvent.exec ["bluetoothctl", "disconnect", mac0] 8]) := by
  refine ⟨rfl, ?_⟩
  rw [disconnect_idempotent_not_available discNotAvailEnv ExecutorKind.localExec
    mac0 rfl]
  rfl

/-- C5 (amended): `BluezDriver.is_connected` never raises as long as the
status query's spawn outcome is not a missing binary: a successful query
yields the `Connected: yes` check on the stripped output, and any
`ExecutionError` (non-zero exit or timeout) yields `false`.  (With a
missing binary the python code raises `FileNotFoundError`, which
`except ExecutionError` does not catch.) -/
theorem is_connected_never_raises_when_spawnable (env : CmdEnv)
    (k : ExecutorKind) (mac : String)
    (h : env (spawned k ["bluetoothctl", "info", mac]) 5 ≠
      ExecOutcome.binaryNotFound) :
    (BluezDriver.is_connected env k mac).1 =
      Except.ok (match env (spawned k ["bluetoothctl", "info", mac]) 5 with
        | ExecOutcome.success out => containsSub (trimStr out) "Connected: yes"
        | _ => false) := by
  cases hq : env (spawned k ["bluetoothctl", "info", mac]) 5
  case success out => simp [BluezDriver.is_connected, Executor.run, hq]
  case nonZeroExit e => simp [BluezDriver.is_connected, Executor.run, hq]
  case timedOut => simp [BluezDriver.is_connected, Executor.run, hq]
  case binaryNotFound => exact absurd hq h

/-- Witness for C5: a query that times out yields `false` without raising. -/
theorem is_connected_never_raises_when_spawnable_witness :
    timeoutEnv ["bluetoothctl", "info", mac0] 5 ≠ ExecOutcome.binaryNotFound ∧
    (BluezDriver.is_connected timeoutEnv ExecutorKind.localExec mac0).1 =
      Except.ok false := by
  refine ⟨by decide, ?_⟩
  rw [is_connected_never_raises_when_spawnable timeoutEnv ExecutorKind.localExec
    mac0 (by decide)]
  rfl

/-- Counterexample for C5 as stated: when the spawn outcome is a missing
`bluetoothctl` binary, `is_connected` does raise — the call returns the
propagating `FileNotFoundError` instead of a boolean, refuting "for every
possible executor outcome the operation never raises". -/
theorem is_connected_missing_binary_cex :
    (BluezDriver.is_connected notFoundEnv ExecutorKind.localExec mac0).1 =
      Except.error PyError.fileNotFoundError := rfl

/-- C6: whenever the resolved remote host's address equals the local
hostname, the entry point short-circuits: exit code 0, a single warning
log, and no spawned command or driver operation at all. -/
theorem self_target_guard (env : CmdEnv) (hostname : String) (host : Host)
    (mac : String) (h : host.address = hostname) :
    entry_point env hostname host mac = (0, [LogEvent.warning]) := by
  simp [entry_point, h]

/-- Witness for C6: a concrete self-targeting run exits 0 with only a
warning logged. -/
theorem self_target_guard_witness :
    host0.address = "office" ∧
    entry_point notFoundEnv "office" host0 mac0 = (0, [LogEvent.warning]) :=
  ⟨rfl, self_target_guard notFoundEnv "office" host0 mac0 rfl⟩

/-- C7 (amended): each executor call spawns its (possibly ssh-wrapped)
command exactly once; it raises an `ExecutionError` exactly when the spawn
exits non-zero or times out; a missing binary instead raises
`FileNotFoundError` (python `subprocess.run` raises it and the executors
do not catch it, so it is not converted to an `ExecutionError`); and a
zero exit returns the stripped stdout. -/
theorem executor_contract (env : CmdEnv) (k : ExecutorKind)
    (cmd : List String) (t : Nat) :
    (Executor.run env k cmd t).2 = [LogEvent.exec (spawned k cmd) t] ∧
    isExecError (Executor.run env k cmd t).1 = cmdFailed (env (spawned k cmd) t) ∧
    ((Executor.run env k cmd t).1 = Except.error PyError.fileNotFoundError ↔
      env (spawned k cmd) t = ExecOutcome.binaryNotFound) ∧
    (∀ out, env (spawned k cmd) t = ExecOutcome.success out →
      (Executor.run env k cmd t).1 = Except.ok (trimStr out)) := by
  cases h : env (spawned k cmd) t <;>
    simp [Executor.run, isExecError, cmdFailed, h]

/-- Witness for C7: a concrete zero-exit spawn returns the stripped
standard output. -/
theorem executor_contract_witness :
    succEnv ["uname"] 3 = ExecOutcome.success " hi\n" ∧
    (Executor.run succEnv ExecutorKind.localExec ["uname"] 3).1 =
      Except.ok "hi" := by
  refine ⟨rfl, ?_⟩
  have h := (executor_contract succEnv ExecutorKind.localExec ["uname"] 3).2.2.2
    " hi\n" rfl
  rw [h]
  exact congrArg Except.ok (by decide)

/-- Counterexample for C7 as stated: with the target binary missing, the
executor raises `FileNotFoundError` rather than an `ExecutionError`, so
"raises an ExecutionFailure exactly when ... the target binary cannot be
located" fails at this input. -/
theorem executor_missing_binary_cex :
    notFoundEnv ["bluetoothctl", "info", mac0] 5 = ExecOutcome.binaryNotFound ∧
    isExecError (Executor.run notFoundEnv ExecutorKind.localExec
      ["bluetoothctl", "info", mac0] 5).1 = false :=
  ⟨rfl, rfl⟩

/-- C8: `DriverFactory.create` yields the local executor's driver when the
locality flag is set, the ssh executor's driver for a remote ssh host, a
`ConfigurationError` for a remote host with a non-ssh protocol and for any
non-bluez driver type; and in every case it either returns a driver or
raises a `ConfigurationError`. -/
theorem factory_create_cases (host : Host) (is_local : Bool) :
    (is_local = true → host.driver_type = DriverType.bluez →
      DriverFactory.create host is_local = Except.ok ExecutorKind.localExec) ∧
    (is_local = false → host.protocol = Protocol.ssh →
      host.driver_type = DriverType.bluez →
      DriverFactory.create host is_local =
        Except.ok (ExecutorKind.sshExec host)) ∧
    (is_local = false → host.protocol ≠ Protocol.ssh →
      isConfigError (DriverFactory.create host is_local) = true) ∧
    (host.driver_type ≠ DriverType.bluez →
      isConfigError (DriverFactory.create host is_local) = true) ∧
    ((∃ ex, DriverFactory.create host is_local = Except.ok ex) ∨
      isConfigError (DriverFactory.create host is_local) = true) := by
  obtain ⟨a, u, p, d⟩ := host
  cases is_local <;> cases p <;> cases d <;>
    simp [DriverFactory.create, isConfigError]

/-- Witness for C8: the factory builds the local driver for the local side
of a concrete run. -/
theorem factory_create_cases_witness :
    host0.driver_type = DriverType.bluez ∧
    DriverFactory.create host0 true = Except.ok ExecutorKind.localExec :=
  ⟨rfl, (factory_create_cases host0 true).1 rfl rfl⟩

/-- C9: the driver's status query runs with timeout 5, disconnect with
timeout 8 and connect with timeout 15, for any executor and environment:
all timeouts lie in the range 5 to 15 seconds, the status query's is the
shortest and connect's the longest, strictly above the query's. -/
theorem driver_timeouts (env : CmdEnv) (k : ExecutorKind) (mac : String) :
    (BluezDriver.is_connected env k mac).2 =
      [LogEvent.exec (spawned k ["bluetoothctl", "info", mac]) 5] ∧
    (BluezDriver.connect env k mac).2 =
      [LogEvent.exec (spawned k ["bluetoothctl", "connect", mac]) 15] ∧
    (BluezDriver.disconnect env k mac).2 =
      [LogEvent.exec (spawned k ["bluetoothctl", "disconnect", mac]) 8] ∧
    5 ≤ 8 ∧ 8 ≤ 15 ∧ 5 < 15 := by
  refine ⟨?_, ?_, ?_, by norm_num, by norm_num, by norm_num⟩
  · cases h : env (spawned k ["bluetoothctl", "info", mac]) 5 <;>
      simp [BluezDriver.is_connected, Executor.run, h]
  · cases h : env (spawned k ["bluetoothctl", "connect", mac]) 15 <;>
      simp [BluezDriver.connect, Executor.run, h]
  · cases h : env (spawned k ["bluetoothctl", "disconnect", mac]) 8 <;>
      simp [BluezDriver.disconnect, Executor.run, h] <;>
      split <;> rfl

/-- Helper: with the self-targeting guard passed and a well-configured ssh
bluez remote, the entry point reduces to the service run over the local
executor and the remote ssh executor, exiting 0 on a normal return and 1
(with an error log) on any escaping exception. -/
theorem entry_point_unfold (env : CmdEnv) (hostname : String) (host : Host)
    (mac : String) (haddr : host.address ≠ hostname)
    (hp : host.protocol = Protocol.ssh)
    (hd : host.driver_type = DriverType.bluez) :
    entry_point env hostname host mac =
      (match SwitchService.run env ExecutorKind.localExec
          (ExecutorKind.sshExec host) mac with
        | (Except.ok _, t) => (0, t)
        | (Except.error _, t) => (1, t ++ [LogEvent.error])) := by
  simp [entry_point, haddr, DriverFactory.create, hp, hd, localhostHost]

/-- Helper: whatever the query's outcome, `is_connected` records exactly one
spawned status command, so the call is determined by its result. -/
theorem is_connected_split (env : CmdEnv) (k : ExecutorKind) (mac : String) :
    BluezDriver.is_connected env k mac =
      ((BluezDriver.is_connected env k mac).1,
       [LogEvent.exec (spawned k ["bluetoothctl", "info", mac]) 5]) := by
  cases h : env (spawned k ["bluetoothctl", "info", mac]) 5 <;>
    simp [BluezDriver.is_connected, Executor.run, h]

/-- Helper: whatever the command's outcome, `disconnect` records exactly one
spawned disconnect command, so the call is determined by its result. -/
theorem disconnect_split (env : CmdEnv) (k : ExecutorKind) (mac : String) :
    BluezDriver.disconnect env k mac =
      ((BluezDriver.disconnect env k mac).1,
       [LogEvent.exec (spawned k ["bluetoothctl", "disconnect", mac]) 8]) := by
  cases h : env (spawned k ["bluetoothctl", "disconnect", mac]) 8
  case success out => simp [BluezDriver.disconnect, Executor.run, h]
  case nonZeroExit e =>
    cases hc : containsSub (lowerStr (trimStr e)) "not available" <;>
      simp [BluezDriver.disconnect, Executor.run, h, hc]
  case timedOut =>
    cases hc : containsSub (lowerStr (timeoutMsg k 8)) "not available" <;>
      simp [BluezDriver.disconnect, Executor.run, h, hc]
  case binaryNotFound => simp [BluezDriver.disconnect, Executor.run, h]

/-- C2: in a push run (device reported connected locally) in which the
local disconnect and the remote connect both succeed, the run spawns
exactly the status query, one local disconnect, then one remote connect,
in that order and nothing else, logs success and exits 0. -/
theorem push_success_trace (env : CmdEnv) (hostname : String) (host : Host)
    (mac out s out2 : String)
    (haddr : host.address ≠ hostname) (hp : host.protocol = Protocol.ssh)
    (hd : host.driver_type = DriverType.bluez)
    (hq : env ["bluetoothctl", "info", mac] 5 = ExecOutcome.success out)
    (hcon : containsSub (trimStr out) "Connected: yes" = true)
    (hdisc : env ["bluetoothctl", "disconnect", mac] 8 = ExecOutcome.success s)
    (hrc : env (sshCmd host ["bluetoothctl", "connect", mac]) 15 =
      ExecOutcome.success out2) :
    entry_point env hostname host mac =
      (0, [LogEvent.info, LogEvent.exec ["bluetoothctl", "info", mac] 5,
           LogEvent.info, LogEvent.info,
           LogEvent.exec ["bluetoothctl", "disconnect", mac] 8, LogEvent.info,
           LogEvent.exec (sshCmd host ["bluetoothctl", "connect", mac]) 15,
           LogEvent.success]) := by
  rw [entry_point_unfold env hostname host mac haddr hp hd]
  simp [SwitchService.run, SwitchService.handle_push, BluezDriver.is_connected,
    BluezDriver.disconnect, BluezDriver.connect, Executor.run, spawned, hq,
    hcon, hdisc, hrc]

/-- Witness for C2: a concrete fully successful push run. -/
theorem push_success_trace_witness :
    pushOkEnv ["bluetoothctl", "info", mac0] 5 =
      ExecOutcome.success "Connected: yes" ∧
    entry_point pushOkEnv "laptop" host0 mac0 =
      (0, [LogEvent.info, LogEvent.exec ["bluetoothctl", "info", mac0] 5,
           LogEvent.info, LogEvent.info,
           LogEvent.exec ["bluetoothctl", "disconnect", mac0] 8, LogEvent.info,
           LogEvent.exec (sshCmd host0 ["bluetoothctl", "connect", mac0]) 15,
           LogEvent.success]) :=
  ⟨rfl, push_success_trace pushOkEnv "laptop" host0 mac0 "Connected: yes" ""
    "Connection successful" (by decide) rfl rfl rfl (by decide) rfl rfl⟩

/-- C1 (amended): in every push run (query reports connected locally, the
local disconnect returns successfully — including via a swallowed
`not available` failure) in which the remote connect raises an
`ExecutionError` (non-zero exit or timeout), the controller attempts
exactly one local reconnect (the revert) and nothing else; the original
remote failure is only logged: the process exits non-zero precisely when
the reconnect itself also fails, and exits 0 when the reconnect
succeeds. -/
theorem push_remote_failure_single_revert (env : CmdEnv) (hostname : String)
    (host : Host) (mac : String)
    (haddr : host.address ≠ hostname) (hp : host.protocol = Protocol.ssh)
    (hd : host.driver_type = DriverType.bluez)
    (hq : (BluezDriver.is_connected env ExecutorKind.localExec mac).1 =
      Except.ok true)
    (hdisc : (BluezDriver.disconnect env ExecutorKind.localExec mac).1 =
      Except.ok ())
    (hrc : cmdFailed (env (sshCmd host ["bluetoothctl", "connect", mac]) 15) =
      true) :
    execEvents (entry_point env hostname host mac).2 =
      [(["bluetoothctl", "info", mac], 5),
       (["bluetoothctl", "disconnect", mac], 8),
       (sshCmd host ["bluetoothctl", "connect", mac], 15),
       (["bluetoothctl", "connect", mac], 15)] ∧
    (entry_point env hostname host mac).1 =
      (match env ["bluetoothctl", "connect", mac] 15 with
        | ExecOutcome.success _ => 0
        | _ => 1) := by
  rw [entry_point_unfold env hostname host mac haddr hp hd]
  simp only [SwitchService.run]
  rw [is_connected_split env ExecutorKind.localExec mac, hq]
  simp only [SwitchService.handle_push]
  rw [disconnect_split env ExecutorKind.localExec mac, hdisc]
  cases hR : env (sshCmd host ["bluetoothctl", "connect", mac]) 15
  case success out => rw [hR] at hrc; exact absurd hrc (by simp [cmdFailed])
  case binaryNotFound => rw [hR] at hrc; exact absurd hrc (by simp [cmdFailed])
  case nonZeroExit e =>
    cases hC : env ["bluetoothctl", "connect", mac] 15 <;>
      simp [BluezDriver.connect, Executor.run, spawned, execEvents, hR, hC]
  case timedOut =>
    cases hC : env ["bluetoothctl", "connect", mac] 15 <;>
      simp [BluezDriver.connect, Executor.run, spawned, execEvents, hR, hC]

/-- Witness for C1: a concrete push run with a failing remote connect and a
succeeding revert spawns exactly one reconnect and exits 0. -/
theorem push_remote_failure_single_revert_witness :
    cmdFailed (pushRevertEnv (sshCmd host0 ["bluetoothctl", "connect", mac0])
      15) = true ∧
    execEvents (entry_point pushRevertEnv "laptop" host0 mac0).2 =
      [(["bluetoothctl", "info", mac0], 5),
       (["bluetoothctl", "disconnect", mac0], 8),
       (sshCmd host0 ["bluetoothctl", "connect", mac0], 15),
       (["bluetoothctl", "connect", mac0], 15)] ∧
    (entry_point pushRevertEnv "laptop" host0 mac0).1 = 0 := by
  have h := push_remote_failure_single_revert pushRevertEnv "laptop" host0 mac0
    (by decide) rfl rfl rfl rfl rfl
  exact ⟨rfl, h.1, h.2.trans rfl⟩

/-- Counterexample for C1 as stated: in this push run the remote connect
fails with an `ExecutionError` and the revert reconnect succeeds, yet the
process exit code is 0 — `_handle_push` swallows the original failure
after a successful revert, so "reports failure with a non-zero process
exit regardless of whether that reconnect succeeds" is false. -/
theorem push_remote_failure_exit_zero_cex :
    pushRevertEnv (sshCmd host0 ["bluetoothctl", "connect", mac0]) 15 =
      ExecOutcome.nonZeroExit "Failed to connect: org.bluez.Error.Failed" ∧
    pushRevertEnv ["bluetoothctl", "connect", mac0] 15 =
      ExecOutcome.success "Connection successful" ∧
    (entry_point pushRevertEnv "laptop" host0 mac0).1 = 0 :=
  ⟨rfl, rfl, rfl⟩

/-- C3: in every pull run (query reports not connected locally), whatever
the best-effort remote disconnect does — succeed, fail with a swallowed
`not available` diagnostic, fail with any other diagnostic, or time out
(every outcome in which its command could be spawned) — the run proceeds
to exactly one local connect attempt: the spawned commands are exactly
the status query, the remote disconnect and the local connect, and the
process exits 0 precisely when the local connect succeeds, 1 otherwise,
with no compensating action in either case. -/
theorem pull_always_attempts_local_connect (env : CmdEnv) (hostname : String)
    (host : Host) (mac : String)
    (haddr : host.address ≠ hostname) (hp : host.protocol = Protocol.ssh)
    (hd : host.driver_type = DriverType.bluez)
    (hq : (BluezDriver.is_connected env ExecutorKind.localExec mac).1 =
      Except.ok false)
    (hdisc : env (sshCmd host ["bluetoothctl", "disconnect", mac]) 8 ≠
      ExecOutcome.binaryNotFound) :
    execEvents (entry_point env hostname host mac).2 =
      [(["bluetoothctl", "info", mac], 5),
       (sshCmd host ["bluetoothctl", "disconnect", mac], 8),
       (["bluetoothctl", "connect", mac], 15)] ∧
    (entry_point env hostname host mac).1 =
      (match env ["bluetoothctl", "connect", mac] 15 with
        | ExecOutcome.success _ => 0
        | _ => 1) := by
  rw [entry_point_unfold env hostname host mac haddr hp hd]
  simp only [SwitchService.run]
  rw [is_connected_split env ExecutorKind.localExec mac, hq]
  cases hD : env (sshCmd host ["bluetoothctl", "disconnect", mac]) 8
  case binaryNotFound => exact absurd hD hdisc
  case success out =>
    cases hC : env ["bluetoothctl", "connect", mac] 15 <;>
      simp [SwitchService.handle_pull, SwitchService.pullConnect,
        BluezDriver.disconnect, BluezDriver.connect, Executor.run, spawned,
        execEvents, hD, hC]
  case nonZeroExit e =>
    cases hc : containsSub (lowerStr (trimStr e)) "not available" <;>
    cases hC : env ["bluetoothctl", "connect", mac] 15 <;>
      simp [SwitchService.handle_pull, SwitchService.pullConnect,
        BluezDriver.disconnect, BluezDriver.connect, Executor.run, spawned,
        execEvents, hD, hC, hc]
  case timedOut =>
    cases hc : containsSub (lowerStr (timeoutMsg (ExecutorKind.sshExec host) 8))
        "not available" <;>
    cases hC : env ["bluetoothctl", "connect", mac] 15 <;>
      simp [SwitchService.handle_pull, SwitchService.pullConnect,
        BluezDriver.disconnect, BluezDriver.connect, Executor.run, spawned,
        execEvents, hD, hC, hc]

/-- Witness for C3: a concrete pull run whose remote disconnect fails still
connects locally and exits 0. -/
theorem pull_always_attempts_local_connect_witness :
    pullOkEnv (sshCmd host0 ["bluetoothctl", "disconnect", mac0]) 8 =
      ExecOutcome.nonZeroExit "Failed to disconnect: org.bluez.Error.Failed" ∧
    execEvents (entry_point pullOkEnv "laptop" host0 mac0).2 =
      [(["bluetoothctl", "info", mac0], 5),
       (sshCmd host0 ["bluetoothctl", "disconnect", mac0], 8),
       (["bluetoothctl", "connect", mac0], 15)] ∧
    (entry_point pullOkEnv "laptop" host0 mac0).1 = 0 := by
  have h := pull_always_attempts_local_connect pullOkEnv "laptop" host0 mac0
    (by decide) rfl rfl rfl (by decide)
  exact ⟨rfl, h.1, h.2.trans rfl⟩

/-- C10: in every push run whose initial local disconnect raises an
`ExecutionError` — non-zero exit or timeout — with a diagnostic that does
not mark the device as not available, the push aborts: only the status
query and the failed local disconnect are spawned (no remote connect, no
revert) and the process exits 1, the failure propagating. -/
theorem push_local_disconnect_failure_aborts (env : CmdEnv) (hostname : String)
    (host : Host) (mac : String)
    (haddr : host.address ≠ hostname) (hp : host.protocol = Protocol.ssh)
    (hd : host.driver_type = DriverType.bluez)
    (hq : (BluezDriver.is_connected env ExecutorKind.localExec mac).1 =
      Except.ok true)
    (hfail : cmdFailed (env ["bluetoothctl", "disconnect", mac] 8) = true)
    (hna : containsSub (lowerStr (failDiag ExecutorKind.localExec 8
      (env ["bluetoothctl", "disconnect", mac] 8))) "not available" = false) :
    execEvents (entry_point env hostname host mac).2 =
      [(["bluetoothctl", "info", mac], 5),
       (["bluetoothctl", "disconnect", mac], 8)] ∧
    (entry_point env hostname host mac).1 = 1 := by
  rw [entry_point_unfold env hostname host mac haddr hp hd]
  simp only [SwitchService.run]
  rw [is_connected_split env ExecutorKind.localExec mac, hq]
  cases hD : env ["bluetoothctl", "disconnect", mac] 8
  case success out => rw [hD] at hfail; exact absurd hfail (by simp [cmdFailed])
  case binaryNotFound => rw [hD] at hfail; exact absurd hfail (by simp [cmdFailed])
  case nonZeroExit e =>
    rw [hD] at hna
    simp only [failDiag] at hna
    simp [SwitchService.handle_push, BluezDriver.disconnect, Executor.run,
      spawned, execEvents, hD, hna]
  case timedOut =>
    rw [hD] at hna
    simp only [failDiag] at hna
    simp [SwitchService.handle_push, BluezDriver.disconnect, Executor.run,
      spawned, execEvents, hD, hna]

/-- Witness for C10: a concrete push run whose local disconnect fails stops
after two spawned commands and exits 1. -/
theorem push_local_disconnect_failure_aborts_witness :
    cmdFailed (pushDiscFailEnv ["bluetoothctl", "disconnect", mac0] 8) = true ∧
    execEvents (entry_point pushDiscFailEnv "laptop" host0 mac0).2 =
      [(["bluetoothctl", "info", mac0], 5),
       (["bluetoothctl", "disconnect", mac0], 8)] ∧
    (entry_point pushDiscFailEnv "laptop" host0 mac0).1 = 1 := by
  have h := push_local_disconnect_failure_aborts pushDiscFailEnv "laptop" host0
    mac0 (by decide) rfl rfl rfl rfl (by decide)
  exact ⟨rfl, h.1, h.2⟩
